import Mathlib

/-!
# robot_precision_ekf: the ROS node around the filter

Shallow embedding of `src/robot_precision_ekf_node.cpp`.

* A finite `double` is the rational it stands for (`ℚ`); `pow(s,2)` is `s ^ 2`.
  The arithmetic of the timestep (`time_new_ - time_old_`, `1.0/max(freq,1.0)`)
  and of the wheel velocities is rounded, operation by operation, by the
  rounding function `fl` of the machine, a parameter; `binary64` is the IEEE 754
  rounding (nearest, ties to even).  The parameter `freq` may also be an
  infinity or a NaN (`ExtDouble`).
* The class `RobotPrecisionEKF` is not part of the sources.  The node only
  talks to it through method calls, so the filter object is represented by the
  list of calls it has received (`ekf_filter_ : List FilterCall`), and what the
  filter answers is a parameter (`FilterModel`).
* `ODOM_TRACK` and `sqrt` come from headers that are not part of the sources;
  both are parameters as well (same structure).
* Output streams (`state_file_`, `cov_file_`, ...) are lists of records, a
  record being the list of numbers written on one line.  Publishers are the
  lists of messages published.  The `cout` text itself, the tf broadcast and
  the `*_time_ = Time::now()` bookkeeping (never read again) have no field.
-/

namespace RobotPrecisionEKFNode

/-- The integer nearest to `y`, the even one of the two when `y` lies half way. -/
def roundHalfEven (y : ℚ) : ℤ :=
  if y - ⌊y⌋ < 1 / 2 then ⌊y⌋
  else if 1 / 2 < y - ⌊y⌋ then ⌊y⌋ + 1
  else if ⌊y⌋ % 2 = 0 then ⌊y⌋ else ⌊y⌋ + 1

/-- The `double` nearest to the rational `q` (IEEE 754 binary64, round to
nearest, ties to even): 53 significant bits, the exponent of the leading bit
not below -1022 (gradual underflow).  A result of magnitude `2^1024` or more,
which the machine turns into an infinity, is outside this function. -/
def binary64 (q : ℚ) : ℚ :=
  if q = 0 then 0
  else (roundHalfEven (q / 2 ^ (max (Int.log 2 |q|) (-1022) - 52)) : ℚ) *
    2 ^ (max (Int.log 2 |q|) (-1022) - 52)

/-- A `double` that may be an infinity or a NaN. -/
inductive ExtDouble where
  | finite (q : ℚ)
  | posInf
  | negInf
  | nan
  deriving DecidableEq, Repr

/-- The enum `RobotPrecisionEKF::FilterType` used by the node. -/
inductive FilterType where
  | EKF_5STATE
  | EKF_3STATE
  | EKF_7STATE_VERR
  deriving DecidableEq, Repr

/-- One method call made on `ekf_filter_`, with its arguments. -/
inductive FilterCall where
  | construct (ft : FilterType) (dt : ExtDouble) (sysNoise : List ℚ)
  | initMeasOdom (alpha eps : ℚ)
  | initMeasGPS (gpsNoise : List ℚ)
  | initMeasIMU (imuNoise : ℚ)
  | setNewTimestep (dt : ℚ)
  | systemUpdate
  | measurementUpdateOdom (vR vL : ℚ)
  | measurementUpdateIMU (omg : ℚ)
  | measurementUpdateGPS (x y : ℚ)
  | getMean
  | getCovariance
  | getNumStates
  deriving DecidableEq, Repr

/-- What the filter, the headers outside the sources and the machine provide:
the answers of the filter (as functions of the calls it has received so far),
the constant `ODOM_TRACK`, the library function `sqrt`, and `fl`, which rounds
the exact result of one arithmetic operation to the `double` that is stored. -/
structure FilterModel where
  initMeasOdom : List FilterCall → Bool
  initMeasGPS : List FilterCall → Bool
  initMeasIMU : List FilterCall → Bool
  getMean : List FilterCall → ℕ → ℚ
  getCovariance : List FilterCall → ℕ → ℕ → ℚ
  getNumStates : List FilterCall → ℕ
  ODOM_TRACK : ℚ
  sqrt : ℚ → ℚ
  fl : ℚ → ℚ

/-- The private parameters read at lines 64-96 (after defaults are applied). -/
structure Params where
  filter_type : String
  odom_used : Bool
  imu_used : Bool
  gps_used : Bool
  freq : ExtDouble
  sigma_sys_x : ℚ
  sigma_sys_y : ℚ
  sigma_sys_tht : ℚ
  sigma_sys_vel : ℚ
  sigma_sys_omg : ℚ
  sigma_sys_vR : ℚ
  sigma_sys_vL : ℚ
  sigma_sys_imubias : ℚ
  sigma_meas_gps_x : ℚ
  sigma_meas_gps_y : ℚ
  sigma_meas_odom_alpha : ℚ
  sigma_meas_odom_eps : ℚ
  sigma_meas_imu_omg : ℚ
  debug : Bool

/-- The message `robot_precision_ekf::EKFDebug` (the fields the node writes). -/
structure EKFDebug where
  ekf_x : ℚ
  ekf_y : ℚ
  ekf_tht : ℚ
  ekf_vel : ℚ
  ekf_omg : ℚ
  ekf_err_x : ℚ
  ekf_err_y : ℚ
  ekf_err_tht : ℚ
  ekf_err_vel : ℚ
  ekf_err_omg : ℚ
  enc_vel : ℚ
  enc_omg : ℚ
  imu_omg : ℚ
  gps_x : ℚ
  gps_y : ℚ
  deriving DecidableEq, Repr

/-- A default-constructed `EKFDebug` (all numeric fields zero). -/
def EKFDebug.zero : EKFDebug :=
  ⟨0, 0, 0, 0, 0, 0, 0, 0, 0, 0, 0, 0, 0, 0, 0⟩

/-- The message `geometry_msgs::PoseWithCovarianceStamped`: stamp, position,
the yaw handed to `createQuaternionFromYaw`, and the 36 covariance entries
(row-major, indices 0..35). -/
structure PoseWithCovarianceStamped where
  stamp : ℚ
  x : ℚ
  y : ℚ
  yaw : ℚ
  covariance : ℕ → ℚ

/-- A default-constructed pose message (ROS messages zero their arrays). -/
def PoseWithCovarianceStamped.zero : PoseWithCovarianceStamped :=
  ⟨0, 0, 0, 0, fun _ => 0⟩

/-- The topics the node may subscribe to. -/
inductive Topic where
  | odom
  | imu_data
  | gps_pose
  deriving DecidableEq, Repr

/-- A sensor sample arriving on one of the topics. -/
inductive Sample where
  | odom (stamp v w : ℚ)
  | imu (stamp omg : ℚ)
  | gps (stamp x y : ℚ)
  deriving DecidableEq, Repr

/-- The topic a sample arrives on. -/
def Sample.topic : Sample → Topic
  | .odom _ _ _ => .odom
  | .imu _ _ => .imu_data
  | .gps _ _ _ => .gps_pose

/-- The members of `RobotPrecisionEKFNode` the constructor and the callbacks
read or write.  `subscribed` lists the topics of the `nh.subscribe` calls made
(the members `odom_sub_`, `imu_sub_`, `gps_sub_`), `warnings` the texts given
to `ROS_WARN`. -/
structure Node where
  filter_type_ : FilterType
  odom_used_ : Bool
  imu_used_ : Bool
  gps_used_ : Bool
  debug_ : Bool
  sys_covariance_ : List ℚ
  gps_covariance_ : List ℚ
  ekf_filter_ : List FilterCall
  subscribed : List Topic
  warnings : List String
  time_new_ : ℚ
  time_old_ : ℚ
  time_start_ : ℚ
  time_init_ : Bool
  odom_stamp_ : ℚ
  imu_stamp_ : ℚ
  gps_stamp_ : ℚ
  ekf_debug_ : EKFDebug
  pose_pub_ : List PoseWithCovarianceStamped
  debug_pub_ : List EKFDebug
  state_file_ : List (List ℚ)
  cov_file_ : List (List ℚ)
  odom_file_ : List (List ℚ)
  imu_file_ : List (List ℚ)
  gps_file_ : List (List ℚ)

/-! ## Constructor -/

/-- Lines 99-116: the `if / else if` chain on `tmp_filter_type`. -/
def selectFilterType (tmp_filter_type : String) : FilterType :=
  if tmp_filter_type = "ekf_5state" then FilterType.EKF_5STATE
  else if tmp_filter_type = "ekf_3state" then FilterType.EKF_3STATE
  else if tmp_filter_type = "ekf_7state_verr" then FilterType.EKF_7STATE_VERR
  else FilterType.EKF_5STATE

/-- Lines 123-131: `sysNoise(1) .. sysNoise(8)`, as the list of its entries. -/
def sysNoise (p : Params) : List ℚ :=
  [p.sigma_sys_x ^ 2, p.sigma_sys_y ^ 2, p.sigma_sys_tht ^ 2, p.sigma_sys_vel ^ 2,
   p.sigma_sys_omg ^ 2, p.sigma_sys_vR ^ 2, p.sigma_sys_vL ^ 2, p.sigma_sys_imubias ^ 2]

/-- Line 135, `max(freq,1.0)`: `std::max(a,b)` is `(a < b) ? b : a`, and a
comparison with a NaN is false. -/
def maxWithOne : ExtDouble → ExtDouble
  | .finite f => if f < 1 then .finite 1 else .finite f
  | .posInf => .posInf
  | .negInf => .finite 1
  | .nan => .nan

/-- Line 135, `1.0/x`. -/
def oneOver (fl : ℚ → ℚ) : ExtDouble → ExtDouble
  | .finite x => if x = 0 then .posInf else .finite (fl (1 / x))
  | .posInf => .finite 0
  | .negInf => .finite 0
  | .nan => .nan

/-- Line 135: the timestep `1.0/max(freq,1.0)` handed to the filter constructor. -/
def initialTimestep (fl : ℚ → ℚ) (freq : ExtDouble) : ExtDouble :=
  oneOver fl (maxWithOne freq)

/-- Lines 146-147: `gpsNoise(1)`, `gpsNoise(2)`. -/
def gpsNoise (p : Params) : List ℚ :=
  [p.sigma_meas_gps_x ^ 2, p.sigma_meas_gps_y ^ 2]

/-- Lines 345-375: `systemUpdate()`; the predict call, then the two reads for
the console print. -/
def systemUpdate (n : Node) : Node :=
  { n with ekf_filter_ := n.ekf_filter_ ++
      [FilterCall.systemUpdate, FilterCall.getMean, FilterCall.getCovariance] }

/-- Lines 138-141: enable the odometry measurement when requested; a `false`
answer only produces a warning. -/
def initOdom (m : FilterModel) (p : Params) (n : Node) : Node :=
  if n.odom_used_ then
    let calls := n.ekf_filter_ ++
      [FilterCall.initMeasOdom p.sigma_meas_odom_alpha p.sigma_meas_odom_eps]
    if !m.initMeasOdom calls then
      { n with ekf_filter_ := calls,
               warnings := n.warnings ++
                 ["Tried to initialize Odometry measurement but failed"] }
    else { n with ekf_filter_ := calls }
  else n

/-- Lines 144-151: enable the GPS measurement when requested. -/
def initGPS (m : FilterModel) (p : Params) (n : Node) : Node :=
  if n.gps_used_ then
    let calls := n.ekf_filter_ ++ [FilterCall.initMeasGPS (gpsNoise p)]
    if !m.initMeasGPS calls then
      { n with gps_covariance_ := gpsNoise p, ekf_filter_ := calls,
               warnings := n.warnings ++
                 ["Tried to initialize GPS measurement but failed"] }
    else { n with gps_covariance_ := gpsNoise p, ekf_filter_ := calls }
  else n

/-- Lines 154-158: enable the IMU measurement when requested. -/
def initIMU (m : FilterModel) (p : Params) (n : Node) : Node :=
  if n.imu_used_ then
    let calls := n.ekf_filter_ ++ [FilterCall.initMeasIMU (p.sigma_meas_imu_omg ^ 2)]
    if !m.initMeasIMU calls then
      { n with ekf_filter_ := calls,
               warnings := n.warnings ++
                 ["Tried to initialize IMU measurement but failed"] }
    else { n with ekf_filter_ := calls }
  else n

/-- Lines 179-197: the three `subscribe` calls, in source order. -/
def subscribeAll (n : Node) : Node :=
  let s1 := if n.odom_used_ then [Topic.odom] else []
  let s2 := if n.imu_used_ then [Topic.imu_data] else []
  let s3 := if n.gps_used_ then [Topic.gps_pose] else []
  { n with subscribed := n.subscribed ++ s1 ++ s2 ++ s3 }

/-- Lines 64-135: the members right after `new RobotPrecisionEKF(...)`. -/
def afterFilterCreation (m : FilterModel) (p : Params) : Node :=
  { filter_type_ := selectFilterType p.filter_type
    odom_used_ := p.odom_used
    imu_used_ := p.imu_used
    gps_used_ := p.gps_used
    debug_ := p.debug
    sys_covariance_ := sysNoise p
    gps_covariance_ := []
    ekf_filter_ := [FilterCall.construct (selectFilterType p.filter_type)
                      (initialTimestep m.fl p.freq) (sysNoise p)]
    subscribed := []
    warnings := []
    time_new_ := 0
    time_old_ := 0
    time_start_ := 0
    time_init_ := false
    odom_stamp_ := 0
    imu_stamp_ := 0
    gps_stamp_ := 0
    ekf_debug_ := EKFDebug.zero
    pose_pub_ := []
    debug_pub_ := []
    state_file_ := []
    cov_file_ := []
    odom_file_ := []
    imu_file_ := []
    gps_file_ := [] }

/-- Lines 51-218: the constructor; `now` is what `ros::Time::now().toSec()`
returns at line 200. -/
def construct (m : FilterModel) (p : Params) (now : ℚ) : Node :=
  let n := afterFilterCreation m p
  let n := initOdom m p n
  let n := initGPS m p n
  let n := initIMU m p n
  let n := systemUpdate n
  let n := subscribeAll n
  { n with time_new_ := now, time_old_ := now, time_start_ := 0, time_init_ := false }

/-! ## Publishing -/

/-- Lines 399-406: the two nested loops over `i, j < 2` and the single
assignment of entry `6*5+5`, applied to the covariance array `c0` of the
message under construction. -/
def copyCovariance (cov : ℕ → ℕ → ℚ) (c0 : ℕ → ℚ) : ℕ → ℚ :=
  let c := (List.range 2).foldl
    (fun c i => (List.range 2).foldl
      (fun c j => Function.update c (6 * i + j) (cov (i + 1) (j + 1))) c) c0
  Function.update c (6 * 5 + 5) (cov 3 3)

/-- Lines 390-406: the pose message, filled in starting from the
default-constructed message `p0`. -/
def poseMessage (p0 : PoseWithCovarianceStamped) (gps_stamp : ℚ) (mean : ℕ → ℚ)
    (cov : ℕ → ℕ → ℚ) : PoseWithCovarianceStamped :=
  { p0 with stamp := gps_stamp
            x := mean 1
            y := mean 2
            yaw := mean 3
            covariance := copyCovariance cov p0.covariance }

/-- Lines 449-458, `state_file_`: the elapsed time, `mean(i)` for
`i = 1 .. numstates-1` from the loop, then `mean(numstates)`. -/
def stateRecord (elapsed : ℚ) (mean : ℕ → ℚ) (numstates : ℕ) : List ℚ :=
  [elapsed] ++ (List.range' 1 (numstates - 1)).map mean ++ [mean numstates]

/-- Lines 450-459, `cov_file_`: the elapsed time, `3*sqrt(cov(i,i))` for
`i = 1 .. numstates-1` from the loop, then `cov(numstates,numstates)`. -/
def covRecord (sqrt : ℚ → ℚ) (elapsed : ℚ) (cov : ℕ → ℕ → ℚ) (numstates : ℕ) : List ℚ :=
  [elapsed] ++ (List.range' 1 (numstates - 1)).map (fun i => 3 * sqrt (cov i i))
    ++ [cov numstates numstates]

/-- What the statements of the switch act on: the member `ekf_debug_` and the
messages sent on `debug_pub_`. -/
abbrev SwitchState := EKFDebug × List EKFDebug

/-- Lines 465-468: the statements under `case EKF_5STATE`. -/
def case5Statements (sqrt : ℚ → ℚ) (mean : ℕ → ℚ) (cov : ℕ → ℕ → ℚ)
    (s : SwitchState) : SwitchState :=
  ({ s.1 with ekf_vel := mean 4
              ekf_omg := mean 5
              ekf_err_vel := 3 * sqrt (cov 4 4)
              ekf_err_omg := 3 * sqrt (cov 5 5) }, s.2)

/-- Lines 470-475: the statements under `case EKF_3STATE`. -/
def case3Statements (sqrt : ℚ → ℚ) (mean : ℕ → ℚ) (cov : ℕ → ℕ → ℚ)
    (s : SwitchState) : SwitchState :=
  ({ s.1 with ekf_x := mean 1
              ekf_y := mean 2
              ekf_tht := mean 3
              ekf_err_x := 3 * sqrt (cov 1 1)
              ekf_err_y := 3 * sqrt (cov 2 2)
              ekf_err_tht := 3 * sqrt (cov 3 3) }, s.2)

/-- Line 477: the statement under `default`. -/
def defaultStatements (s : SwitchState) : SwitchState :=
  (s.1, s.2 ++ [s.1])

/-- The statement groups of the switch in source order; no group but the last
ends in `break`. -/
def switchBody (sqrt : ℚ → ℚ) (mean : ℕ → ℚ) (cov : ℕ → ℕ → ℚ) :
    List (SwitchState → SwitchState) :=
  [case5Statements sqrt mean cov, case3Statements sqrt mean cov, defaultStatements]

/-- The position in `switchBody` of the label control jumps to. -/
def switchEntry : FilterType → ℕ
  | .EKF_5STATE => 0
  | .EKF_3STATE => 1
  | .EKF_7STATE_VERR => 2

/-- Lines 462-479: the switch; control enters at the label and runs every
following group. -/
def debugSwitch (sqrt : ℚ → ℚ) (ft : FilterType) (mean : ℕ → ℚ) (cov : ℕ → ℕ → ℚ)
    (s : SwitchState) : SwitchState :=
  ((switchBody sqrt mean cov).drop (switchEntry ft)).foldl (fun s f => f s) s

/-- Lines 385-482: `publish()`. -/
def publish (m : FilterModel) (n : Node) : Node :=
  let calls1 := n.ekf_filter_ ++ [FilterCall.getMean]
  let mean := m.getMean calls1
  let calls2 := calls1 ++ [FilterCall.getCovariance]
  let cov := m.getCovariance calls2
  let p := poseMessage PoseWithCovarianceStamped.zero n.gps_stamp_ mean cov
  let n := { n with ekf_filter_ := calls2, pose_pub_ := n.pose_pub_ ++ [p] }
  if n.debug_ then
    let calls3 := n.ekf_filter_ ++ [FilterCall.getNumStates]
    let numstates := m.getNumStates calls3
    let elapsed := n.time_new_ - n.time_start_
    let s := debugSwitch m.sqrt n.filter_type_ mean cov (n.ekf_debug_, n.debug_pub_)
    { n with ekf_filter_ := calls3
             state_file_ := n.state_file_ ++ [stateRecord elapsed mean numstates]
             cov_file_ := n.cov_file_ ++ [covRecord m.sqrt elapsed cov numstates]
             ekf_debug_ := s.1
             debug_pub_ := s.2 }
  else n

/-! ## Callbacks -/

/-- Lines 234-243: `setStartTime`. -/
def setStartTime (n : Node) (t : ℚ) : Node :=
  if n.time_init_ then n
  else { n with time_start_ := t, time_init_ := true }

/-- Lines 257-258: the wheel velocities `(vR, vL)` computed from the twist,
`v + ODOM_TRACK/2*w` and `v - ODOM_TRACK/2*w`, every operation rounded. -/
def wheelVelocities (fl : ℚ → ℚ) (ODOM_TRACK v w : ℚ) : ℚ × ℚ :=
  (fl (v + fl (fl (ODOM_TRACK / 2) * w)), fl (v - fl (fl (ODOM_TRACK / 2) * w)))

/-- Lines 247-277: `odomCallback`. -/
def odomCallback (m : FilterModel) (n : Node) (stamp v w : ℚ) : Node :=
  let n := { n with odom_stamp_ := stamp }
  let n := setStartTime n n.odom_stamp_
  let vR := (wheelVelocities m.fl m.ODOM_TRACK v w).1
  let vL := (wheelVelocities m.fl m.ODOM_TRACK v w).2
  let n := { n with ekf_filter_ := n.ekf_filter_ ++ [FilterCall.measurementUpdateOdom vR vL] }
  if n.debug_ then
    { n with ekf_debug_ := { n.ekf_debug_ with enc_vel := v, enc_omg := w }
             odom_file_ := n.odom_file_ ++ [[n.odom_stamp_ - n.time_start_, v, w]] }
  else n

/-- Lines 281-305: `imuCallback`. -/
def imuCallback (n : Node) (stamp imu_omg : ℚ) : Node :=
  let n := { n with imu_stamp_ := stamp }
  let n := setStartTime n n.imu_stamp_
  let n := { n with ekf_filter_ := n.ekf_filter_ ++ [FilterCall.measurementUpdateIMU imu_omg] }
  if n.debug_ then
    { n with ekf_debug_ := { n.ekf_debug_ with imu_omg := imu_omg }
             imu_file_ := n.imu_file_ ++ [[n.imu_stamp_ - n.time_start_, imu_omg]] }
  else n

/-- Lines 308-343: `gpsCallback`. -/
def gpsCallback (m : FilterModel) (n : Node) (stamp x y : ℚ) : Node :=
  let n := { n with gps_stamp_ := stamp }
  let n := setStartTime n n.gps_stamp_
  let n := { n with time_new_ := n.gps_stamp_ }
  let time_diff := m.fl (n.time_new_ - n.time_old_)
  let n := { n with ekf_filter_ := n.ekf_filter_ ++ [FilterCall.setNewTimestep time_diff] }
  let n := { n with time_old_ := n.time_new_ }
  let n := systemUpdate n
  let n := { n with ekf_filter_ := n.ekf_filter_ ++ [FilterCall.measurementUpdateGPS x y] }
  let n := { n with ekf_filter_ := n.ekf_filter_ ++
               [FilterCall.getMean, FilterCall.getCovariance] }
  let n :=
    if n.debug_ then
      { n with ekf_debug_ := { n.ekf_debug_ with gps_x := x, gps_y := y }
               gps_file_ := n.gps_file_ ++ [[n.time_new_ - n.time_start_, x, y]] }
    else n
  publish m n

/-- The callback registered for the topic of the sample, run on it. -/
def callback (m : FilterModel) (n : Node) : Sample → Node
  | .odom stamp v w => odomCallback m n stamp v w
  | .imu stamp omg => imuCallback n stamp omg
  | .gps stamp x y => gpsCallback m n stamp x y

/-- A finite sequence of callbacks, run one after the other. -/
def run (m : FilterModel) (n : Node) (samples : List Sample) : Node :=
  samples.foldl (callback m) n

/-- A sample arriving at the node: its callback runs when the node has
subscribed to its topic, and nothing happens otherwise. -/
def deliver (m : FilterModel) (n : Node) (s : Sample) : Node :=
  if s.topic ∈ n.subscribed then callback m n s else n

/-! ## Reading the trace of filter calls -/

/-- The read accessors `getMean`, `getCovariance`, `getNumStates`. -/
def FilterCall.isAccessor : FilterCall → Bool
  | .getMean => true
  | .getCovariance => true
  | .getNumStates => true
  | _ => false

/-- The calls of a trace that act on the filter: everything but the read
accessors. -/
def operations (calls : List FilterCall) : List FilterCall :=
  calls.filter (fun c => !c.isAccessor)

/-- The name of a filter method. -/
inductive Method where
  | construct
  | initMeasOdom
  | initMeasGPS
  | initMeasIMU
  | setNewTimestep
  | systemUpdate
  | measurementUpdateOdom
  | measurementUpdateIMU
  | measurementUpdateGPS
  | getMean
  | getCovariance
  | getNumStates
  deriving DecidableEq, Repr

/-- The method a call invokes. -/
def FilterCall.method : FilterCall → Method
  | .construct _ _ _ => .construct
  | .initMeasOdom _ _ => .initMeasOdom
  | .initMeasGPS _ => .initMeasGPS
  | .initMeasIMU _ => .initMeasIMU
  | .setNewTimestep _ => .setNewTimestep
  | .systemUpdate => .systemUpdate
  | .measurementUpdateOdom _ _ => .measurementUpdateOdom
  | .measurementUpdateIMU _ => .measurementUpdateIMU
  | .measurementUpdateGPS _ _ => .measurementUpdateGPS
  | .getMean => .getMean
  | .getCovariance => .getCovariance
  | .getNumStates => .getNumStates

/-- The methods a trace invokes on the filter, accessors left out. -/
def operationNames (calls : List FilterCall) : List Method :=
  (operations calls).map FilterCall.method

/-- The timesteps handed to `setNewTimestep` in a trace, in order. -/
def timesteps (calls : List FilterCall) : List ℚ :=
  calls.filterMap fun c =>
    match c with
    | .setNewTimestep dt => some dt
    | _ => none

/-- The header stamps of the GPS samples of a sequence, in order. -/
def gpsStamps (samples : List Sample) : List ℚ :=
  samples.filterMap fun s =>
    match s with
    | .gps stamp _ _ => some stamp
    | _ => none

/-- The block of filter operations one callback is to issue. -/
def blockOf : Sample → List Method
  | .gps _ _ _ => [.setNewTimestep, .systemUpdate, .measurementUpdateGPS]
  | .odom _ _ _ => [.measurementUpdateOdom]
  | .imu _ _ => [.measurementUpdateIMU]

/-! ## Concrete inputs -/

/-- A filter stand-in for evaluation: every enabling call fails, the mean is
`(1, 2, 3, 4, 5, ..)`, the covariance has 4 on and 1 off the diagonal, three states,
track width one, `sqrt` is exact on perfect squares, and the machine rounds
as IEEE 754 binary64 does. -/
def sampleModel : FilterModel :=
  { initMeasOdom := fun _ => false
    initMeasGPS := fun _ => false
    initMeasIMU := fun _ => false
    getMean := fun _ i => (i : ℚ)
    getCovariance := fun _ i j => if i = j then 4 else 1
    getNumStates := fun _ => 3
    ODOM_TRACK := 1
    sqrt := fun q => Rat.sqrt q
    fl := binary64 }

/-- The default parameter values of lines 64-96. -/
def defaultParams : Params :=
  { filter_type := "ekf_5state"
    odom_used := true
    imu_used := true
    gps_used := true
    freq := ExtDouble.finite 10
    sigma_sys_x := 1 / 100
    sigma_sys_y := 1 / 100
    sigma_sys_tht := 5 / 100
    sigma_sys_vel := 1 / 2
    sigma_sys_omg := 1 / 2
    sigma_sys_vR := 5 / 100
    sigma_sys_vL := 5 / 100
    sigma_sys_imubias := 1 / 1000
    sigma_meas_gps_x := 5 / 100
    sigma_meas_gps_y := 5 / 100
    sigma_meas_odom_alpha := 1 / 100
    sigma_meas_odom_eps := 1 / 10000
    sigma_meas_imu_omg := 5 / 100
    debug := false }

/-- The defaults with two different wheel sigmas: `sigma_sys_vR = 2`,
`sigma_sys_vL = 3`. -/
def wheelParams : Params :=
  { defaultParams with sigma_sys_vR := 2, sigma_sys_vL := 3 }

/-- The defaults with `debug` on and the three-state filter selected. -/
def debugParams : Params :=
  { defaultParams with filter_type := "ekf_3state", debug := true }

/-- Modelled from the spec: the answers of the enabling calls of the class
`RobotPrecisionEKF`, which is not in the sources, after section 4.1.  The
position channel is compatible with every variant and is refused only for a
negative variance, and the node passes squares; the odometry channel is
accepted; the inertial channel is refused by a filter constructed as
`EKF_3STATE`, which has no angular-rate or bias state.  The rest is
`sampleModel`. -/
def variantModel : FilterModel :=
  { sampleModel with
    initMeasOdom := fun _ => true
    initMeasGPS := fun _ => true
    initMeasIMU := fun calls =>
      match calls.head? with
      | some (FilterCall.construct FilterType.EKF_3STATE _ _) => false
      | _ => true }

/-- The three-state filter with the GPS and the IMU channel requested and
odometry not. -/
def basicImuParams : Params :=
  { defaultParams with filter_type := "ekf_3state", odom_used := false }

/-- The track width one half, the rest as in `sampleModel`. -/
def halfTrackModel : FilterModel :=
  { sampleModel with ODOM_TRACK := 1 / 2 }

/-- The machine adding and multiplying without rounding, the rest as in `m`. -/
def exactArithmetic (m : FilterModel) : FilterModel :=
  { m with fl := fun q => q }

/-! ## Rounding -/

theorem floor_le_roundHalfEven (y : ℚ) : ⌊y⌋ ≤ roundHalfEven y := by
  unfold roundHalfEven
  split_ifs <;> omega

theorem roundHalfEven_le_floor_succ (y : ℚ) : roundHalfEven y ≤ ⌊y⌋ + 1 := by
  unfold roundHalfEven
  split_ifs <;> omega

theorem roundHalfEven_eq (y : ℚ) (k : ℤ) (h1 : (k : ℚ) - 1 / 2 < y) (h2 : y < k + 1 / 2) :
    roundHalfEven y = k := by
  have hf1 : (⌊y⌋ : ℚ) ≤ y := Int.floor_le y
  have hf2 : y < ⌊y⌋ + 1 := Int.lt_floor_add_one y
  have hle : ⌊y⌋ ≤ k := by
    have : (⌊y⌋ : ℚ) < k + 1 := by linarith
    have : ⌊y⌋ < k + 1 := by exact_mod_cast this
    omega
  have hge : k - 1 ≤ ⌊y⌋ := by
    have : (k : ℚ) - 1 < ⌊y⌋ + 1 := by linarith
    have : k - 1 < ⌊y⌋ + 1 := by exact_mod_cast this
    omega
  unfold roundHalfEven
  rcases (by omega : ⌊y⌋ = k ∨ ⌊y⌋ = k - 1) with h | h
  · have h' : (⌊y⌋ : ℚ) = k := by exact_mod_cast h
    rw [if_pos (by rw [h']; linarith)]
    exact h
  · have h' : (⌊y⌋ : ℚ) = k - 1 := by rw [h]; push_cast; ring
    rw [if_neg (by rw [h']; linarith), if_pos (by rw [h']; linarith), h]
    ring

theorem roundHalfEven_tie (y : ℚ) (f : ℤ) (h : y = f + 1 / 2) :
    roundHalfEven y = if f % 2 = 0 then f else f + 1 := by
  have hf : ⌊y⌋ = f := by
    rw [Int.floor_eq_iff]
    constructor <;> linarith
  unfold roundHalfEven
  rw [hf, if_neg (by rw [h]; norm_num), if_neg (by rw [h]; norm_num)]

theorem log2_eq (r : ℚ) (e : ℤ) (h0 : 0 < r) (h1 : (2 : ℚ) ^ e ≤ r) (h2 : r < 2 ^ (e + 1)) :
    Int.log 2 r = e := by
  have a : e ≤ Int.log 2 r :=
    (Int.zpow_le_iff_le_log (by norm_num) h0).1 (by exact_mod_cast h1)
  have b : Int.log 2 r < e + 1 :=
    (Int.lt_zpow_iff_log_lt (by norm_num) h0).1 (by exact_mod_cast h2)
  omega

theorem binary64_eval (q : ℚ) (e k : ℤ) (hq : q ≠ 0) (h1 : (2 : ℚ) ^ e ≤ |q|)
    (h2 : |q| < 2 ^ (e + 1)) (he : -1022 ≤ e)
    (hk : roundHalfEven (q / 2 ^ (e - 52)) = k) :
    binary64 q = k * 2 ^ (e - 52) := by
  have hl : Int.log 2 |q| = e := log2_eq |q| e (abs_pos.2 hq) h1 h2
  unfold binary64
  rw [if_neg hq, hl, max_eq_left he, hk]

theorem binary64_zero : binary64 0 = 0 := by
  simp [binary64]

theorem binary64_one : binary64 1 = 1 := by
  rw [binary64_eval 1 0 (2 ^ 52) (by norm_num) (by norm_num) (by norm_num) (by norm_num)
    (roundHalfEven_eq _ _ (by norm_num) (by norm_num))]
  norm_num

theorem binary64_two : binary64 2 = 2 := by
  rw [binary64_eval 2 1 (2 ^ 52) (by norm_num) (by norm_num) (by norm_num) (by norm_num)
    (roundHalfEven_eq _ _ (by norm_num) (by norm_num))]
  norm_num

theorem binary64_neg_one : binary64 (-1) = -1 := by
  rw [binary64_eval (-1) 0 (-2 ^ 52) (by norm_num) (by norm_num) (by norm_num) (by norm_num)
    (roundHalfEven_eq _ _ (by norm_num) (by norm_num))]
  norm_num

theorem binary64_pos (q : ℚ) (h : (2 : ℚ) ^ (-1074 : ℤ) ≤ q) : 0 < binary64 q := by
  have h0 : (0 : ℚ) < 2 ^ (-1074 : ℤ) := by positivity
  have hq : 0 < q := lt_of_lt_of_le h0 h
  unfold binary64
  rw [if_neg (ne_of_gt hq)]
  have hu : (0 : ℚ) < 2 ^ (max (Int.log 2 |q|) (-1022) - 52) := by positivity
  have hy : (2 : ℚ) ^ (max (Int.log 2 |q|) (-1022) - 52) ≤ q := by
    rcases le_total (Int.log 2 |q|) (-1022) with hc | hc
    · rw [max_eq_right hc]
      norm_num at h ⊢
      exact h
    · rw [max_eq_left hc]
      have h3 : ((2 : ℕ) : ℚ) ^ Int.log 2 |q| ≤ |q| :=
        Int.zpow_log_le_self (by norm_num) (abs_pos.2 (ne_of_gt hq))
      rw [abs_of_pos hq] at h3 ⊢
      have h4 : (2 : ℚ) ^ (Int.log 2 q - 52) ≤ 2 ^ Int.log 2 q :=
        zpow_le_zpow_right₀ (by norm_num) (by omega)
      push_cast at h3
      linarith
  have h1 : (1 : ℚ) ≤ q / 2 ^ (max (Int.log 2 |q|) (-1022) - 52) := by
    rw [le_div_iff₀ hu]
    linarith
  have h2 : 1 ≤ ⌊q / 2 ^ (max (Int.log 2 |q|) (-1022) - 52)⌋ :=
    Int.le_floor.2 (by exact_mod_cast h1)
  have h3 := floor_le_roundHalfEven (q / 2 ^ (max (Int.log 2 |q|) (-1022) - 52))
  have h4 : (0 : ℚ) < roundHalfEven (q / 2 ^ (max (Int.log 2 |q|) (-1022) - 52)) := by
    exact_mod_cast (by omega : 0 < roundHalfEven (q / 2 ^ (max (Int.log 2 |q|) (-1022) - 52)))
  positivity

theorem binary64_nonpos (q : ℚ) (h : q ≤ 0) : binary64 q ≤ 0 := by
  unfold binary64
  split_ifs with hq
  · exact le_refl 0
  · have hq' : q < 0 := lt_of_le_of_ne h hq
    have hu : (0 : ℚ) < 2 ^ (max (Int.log 2 |q|) (-1022) - 52) := by positivity
    have h1 : q / 2 ^ (max (Int.log 2 |q|) (-1022) - 52) < 0 := div_neg_of_neg_of_pos hq' hu
    have h2 : ⌊q / 2 ^ (max (Int.log 2 |q|) (-1022) - 52)⌋ < 0 :=
      Int.floor_lt.2 (by exact_mod_cast h1)
    have h3 := roundHalfEven_le_floor_succ (q / 2 ^ (max (Int.log 2 |q|) (-1022) - 52))
    have h4 : (roundHalfEven (q / 2 ^ (max (Int.log 2 |q|) (-1022) - 52)) : ℚ) ≤ 0 := by
      exact_mod_cast (by omega : roundHalfEven (q / 2 ^ (max (Int.log 2 |q|) (-1022) - 52)) ≤ 0)
    exact mul_nonpos_of_nonpos_of_nonneg h4 (le_of_lt hu)

/-! ## The trace and the clock, callback by callback -/

theorem odomCallback_calls (m : FilterModel) (n : Node) (stamp v w : ℚ) :
    (odomCallback m n stamp v w).ekf_filter_ = n.ekf_filter_ ++
      [FilterCall.measurementUpdateOdom (wheelVelocities m.fl m.ODOM_TRACK v w).1
        (wheelVelocities m.fl m.ODOM_TRACK v w).2] := by
  cases h1 : n.time_init_ <;> cases h2 : n.debug_ <;>
    simp [odomCallback, setStartTime, h1, h2]

theorem imuCallback_calls (n : Node) (stamp omg : ℚ) :
    (imuCallback n stamp omg).ekf_filter_ = n.ekf_filter_ ++
      [FilterCall.measurementUpdateIMU omg] := by
  cases h1 : n.time_init_ <;> cases h2 : n.debug_ <;>
    simp [imuCallback, setStartTime, h1, h2]

theorem gpsCallback_calls (m : FilterModel) (n : Node) (stamp x y : ℚ) :
    (gpsCallback m n stamp x y).ekf_filter_ = n.ekf_filter_ ++
      ([FilterCall.setNewTimestep (m.fl (stamp - n.time_old_)), FilterCall.systemUpdate,
        FilterCall.getMean, FilterCall.getCovariance,
        FilterCall.measurementUpdateGPS x y,
        FilterCall.getMean, FilterCall.getCovariance,
        FilterCall.getMean, FilterCall.getCovariance] ++
        (if n.debug_ then [FilterCall.getNumStates] else [])) := by
  cases h1 : n.time_init_ <;> cases h2 : n.debug_ <;>
    simp [gpsCallback, publish, systemUpdate, setStartTime, h1, h2]

theorem odomCallback_clock (m : FilterModel) (n : Node) (stamp v w : ℚ) :
    (odomCallback m n stamp v w).time_old_ = n.time_old_ ∧
    (odomCallback m n stamp v w).time_new_ = n.time_new_ ∧
    (odomCallback m n stamp v w).debug_ = n.debug_ := by
  cases h1 : n.time_init_ <;> cases h2 : n.debug_ <;>
    simp [odomCallback, setStartTime, h1, h2]

theorem imuCallback_clock (n : Node) (stamp omg : ℚ) :
    (imuCallback n stamp omg).time_old_ = n.time_old_ ∧
    (imuCallback n stamp omg).time_new_ = n.time_new_ ∧
    (imuCallback n stamp omg).debug_ = n.debug_ := by
  cases h1 : n.time_init_ <;> cases h2 : n.debug_ <;>
    simp [imuCallback, setStartTime, h1, h2]

theorem gpsCallback_clock (m : FilterModel) (n : Node) (stamp x y : ℚ) :
    (gpsCallback m n stamp x y).time_old_ = stamp ∧
    (gpsCallback m n stamp x y).time_new_ = stamp ∧
    (gpsCallback m n stamp x y).debug_ = n.debug_ := by
  cases h1 : n.time_init_ <;> cases h2 : n.debug_ <;>
    simp [gpsCallback, publish, systemUpdate, setStartTime, h1, h2]

theorem operationNames_append (a b : List FilterCall) :
    operationNames (a ++ b) = operationNames a ++ operationNames b := by
  simp [operationNames, operations]

theorem callback_operationNames (m : FilterModel) (n : Node) (s : Sample) :
    operationNames (callback m n s).ekf_filter_ =
      operationNames n.ekf_filter_ ++ blockOf s := by
  cases s with
  | odom stamp v w =>
    simp [callback, odomCallback_calls, operationNames_append, blockOf]
    simp [operationNames, operations, FilterCall.isAccessor, FilterCall.method]
  | imu stamp omg =>
    simp [callback, imuCallback_calls, operationNames_append, blockOf]
    simp [operationNames, operations, FilterCall.isAccessor, FilterCall.method]
  | gps stamp x y =>
    simp only [callback, gpsCallback_calls, operationNames_append, blockOf]
    cases n.debug_ <;>
      simp [operationNames, operations, FilterCall.isAccessor, FilterCall.method]

theorem run_operationNames (m : FilterModel) (samples : List Sample) (n : Node) :
    operationNames (run m n samples).ekf_filter_ =
      operationNames n.ekf_filter_ ++ samples.flatMap blockOf := by
  induction samples generalizing n with
  | nil => simp [run]
  | cons s rest ih =>
    have h := ih (callback m n s)
    simp only [run, List.foldl_cons] at h ⊢
    rw [h, callback_operationNames]
    simp

theorem initOdom_calls (m : FilterModel) (p : Params) (n : Node) :
    (initOdom m p n).ekf_filter_ = n.ekf_filter_ ++
      (if n.odom_used_ then
        [FilterCall.initMeasOdom p.sigma_meas_odom_alpha p.sigma_meas_odom_eps]
       else []) := by
  cases h : n.odom_used_ <;> simp [initOdom, h]
  split <;> rfl

theorem initGPS_calls (m : FilterModel) (p : Params) (n : Node) :
    (initGPS m p n).ekf_filter_ = n.ekf_filter_ ++
      (if n.gps_used_ then [FilterCall.initMeasGPS (gpsNoise p)] else []) := by
  cases h : n.gps_used_ <;> simp [initGPS, h]
  split <;> rfl

theorem initIMU_calls (m : FilterModel) (p : Params) (n : Node) :
    (initIMU m p n).ekf_filter_ = n.ekf_filter_ ++
      (if n.imu_used_ then [FilterCall.initMeasIMU (p.sigma_meas_imu_omg ^ 2)] else []) := by
  cases h : n.imu_used_ <;> simp [initIMU, h]
  split <;> rfl

theorem initOdom_flags (m : FilterModel) (p : Params) (n : Node) :
    (initOdom m p n).odom_used_ = n.odom_used_ ∧ (initOdom m p n).imu_used_ = n.imu_used_ ∧
    (initOdom m p n).gps_used_ = n.gps_used_ ∧ (initOdom m p n).subscribed = n.subscribed ∧
    (initOdom m p n).filter_type_ = n.filter_type_ ∧
    (initOdom m p n).sys_covariance_ = n.sys_covariance_ ∧
    (initOdom m p n).debug_ = n.debug_ := by
  cases h : n.odom_used_ <;> simp [initOdom, h]
  split <;> simp [h]

theorem initGPS_flags (m : FilterModel) (p : Params) (n : Node) :
    (initGPS m p n).odom_used_ = n.odom_used_ ∧ (initGPS m p n).imu_used_ = n.imu_used_ ∧
    (initGPS m p n).gps_used_ = n.gps_used_ ∧ (initGPS m p n).subscribed = n.subscribed ∧
    (initGPS m p n).filter_type_ = n.filter_type_ ∧
    (initGPS m p n).sys_covariance_ = n.sys_covariance_ ∧
    (initGPS m p n).debug_ = n.debug_ := by
  cases h : n.gps_used_ <;> simp [initGPS, h]
  split <;> simp [h]

theorem initIMU_flags (m : FilterModel) (p : Params) (n : Node) :
    (initIMU m p n).odom_used_ = n.odom_used_ ∧ (initIMU m p n).imu_used_ = n.imu_used_ ∧
    (initIMU m p n).gps_used_ = n.gps_used_ ∧ (initIMU m p n).subscribed = n.subscribed ∧
    (initIMU m p n).filter_type_ = n.filter_type_ ∧
    (initIMU m p n).sys_covariance_ = n.sys_covariance_ ∧
    (initIMU m p n).debug_ = n.debug_ := by
  cases h : n.imu_used_ <;> simp [initIMU, h]
  split <;> simp [h]

theorem initOdom_warnings (m : FilterModel) (p : Params) (n : Node) :
    (initOdom m p n).warnings = n.warnings ++
      (if n.odom_used_ = true ∧ m.initMeasOdom (n.ekf_filter_ ++
          [FilterCall.initMeasOdom p.sigma_meas_odom_alpha p.sigma_meas_odom_eps]) = false
       then ["Tried to initialize Odometry measurement but failed"] else []) := by
  cases h : n.odom_used_ <;> simp [initOdom, h]
  split <;> simp_all

theorem initGPS_warnings (m : FilterModel) (p : Params) (n : Node) :
    (initGPS m p n).warnings = n.warnings ++
      (if n.gps_used_ = true ∧ m.initMeasGPS (n.ekf_filter_ ++
          [FilterCall.initMeasGPS (gpsNoise p)]) = false
       then ["Tried to initialize GPS measurement but failed"] else []) := by
  cases h : n.gps_used_ <;> simp [initGPS, h]
  split <;> simp_all

theorem initIMU_warnings (m : FilterModel) (p : Params) (n : Node) :
    (initIMU m p n).warnings = n.warnings ++
      (if n.imu_used_ = true ∧ m.initMeasIMU (n.ekf_filter_ ++
          [FilterCall.initMeasIMU (p.sigma_meas_imu_omg ^ 2)]) = false
       then ["Tried to initialize IMU measurement but failed"] else []) := by
  cases h : n.imu_used_ <;> simp [initIMU, h]
  split <;> simp_all

theorem construct_calls (m : FilterModel) (p : Params) (now : ℚ) :
    (construct m p now).ekf_filter_ =
      [FilterCall.construct (selectFilterType p.filter_type) (initialTimestep m.fl p.freq)
        (sysNoise p)] ++
      (if p.odom_used then
        [FilterCall.initMeasOdom p.sigma_meas_odom_alpha p.sigma_meas_odom_eps]
       else []) ++
      (if p.gps_used then [FilterCall.initMeasGPS (gpsNoise p)] else []) ++
      (if p.imu_used then [FilterCall.initMeasIMU (p.sigma_meas_imu_omg ^ 2)] else []) ++
      [FilterCall.systemUpdate, FilterCall.getMean, FilterCall.getCovariance] := by
  simp only [construct, subscribeAll, systemUpdate, initIMU_calls, initGPS_calls,
    initOdom_calls, (initGPS_flags _ _ _).2.1, (initOdom_flags _ _ _).2.1,
    (initOdom_flags _ _ _).2.2.1]
  simp [afterFilterCreation]

theorem construct_clock (m : FilterModel) (p : Params) (now : ℚ) :
    (construct m p now).time_old_ = now ∧ (construct m p now).time_new_ = now := by
  simp [construct]

theorem construct_debug (m : FilterModel) (p : Params) (now : ℚ) :
    (construct m p now).debug_ = p.debug := by
  simp only [construct, subscribeAll, systemUpdate, (initIMU_flags _ _ _).2.2.2.2.2.2,
    (initGPS_flags _ _ _).2.2.2.2.2.2, (initOdom_flags _ _ _).2.2.2.2.2.2]
  rfl

theorem predict_then_gps (samples : List Sample) (i : ℕ) :
    (samples.flatMap blockOf)[i]? = some Method.systemUpdate →
      (samples.flatMap blockOf)[i + 1]? = some Method.measurementUpdateGPS := by
  induction samples generalizing i with
  | nil => simp
  | cons s rest ih =>
    cases s with
    | odom stamp v w =>
      cases i with
      | zero => simp [blockOf]
      | succ k => simpa [blockOf] using ih k
    | imu stamp omg =>
      cases i with
      | zero => simp [blockOf]
      | succ k => simpa [blockOf] using ih k
    | gps stamp x y =>
      match i with
      | 0 => simp [blockOf]
      | 1 => simp [blockOf]
      | 2 => simp [blockOf]
      | k + 3 => simpa [blockOf] using ih k

theorem count_predicts (samples : List Sample) :
    (samples.flatMap blockOf).count Method.systemUpdate = (gpsStamps samples).length := by
  induction samples with
  | nil => simp [gpsStamps]
  | cons s rest ih =>
    cases s <;> simp [blockOf, gpsStamps, List.count_cons] at ih ⊢ <;> omega

theorem callback_timesteps (m : FilterModel) (n : Node) (s : Sample) :
    timesteps (callback m n s).ekf_filter_ = timesteps n.ekf_filter_ ++
      (match s with
       | .gps stamp _ _ => [m.fl (stamp - n.time_old_)]
       | _ => []) := by
  cases s with
  | odom stamp v w => simp [callback, odomCallback_calls, timesteps]
  | imu stamp omg => simp [callback, imuCallback_calls, timesteps]
  | gps stamp x y =>
    simp only [callback, gpsCallback_calls]
    cases n.debug_ <;> simp [timesteps]

theorem callback_time_old (m : FilterModel) (n : Node) (s : Sample) :
    (callback m n s).time_old_ =
      (match s with
       | .gps stamp _ _ => stamp
       | _ => n.time_old_) := by
  cases s with
  | odom stamp v w => simp [callback, (odomCallback_clock m n stamp v w).1]
  | imu stamp omg => simp [callback, (imuCallback_clock n stamp omg).1]
  | gps stamp x y => simp [callback, (gpsCallback_clock m n stamp x y).1]

theorem run_timesteps (m : FilterModel) (samples : List Sample) (n : Node) :
    timesteps (run m n samples).ekf_filter_ = timesteps n.ekf_filter_ ++
      List.zipWith (fun a b => m.fl (a - b)) (gpsStamps samples)
        (n.time_old_ :: gpsStamps samples) := by
  induction samples generalizing n with
  | nil => simp [run, gpsStamps]
  | cons s rest ih =>
    have h := ih (callback m n s)
    simp only [run, List.foldl_cons] at h ⊢
    rw [h, callback_timesteps, callback_time_old]
    cases s <;> simp [gpsStamps]

theorem construct_timesteps (m : FilterModel) (p : Params) (now : ℚ) :
    timesteps (construct m p now).ekf_filter_ = [] := by
  rw [construct_calls]
  cases p.odom_used <;> cases p.gps_used <;> cases p.imu_used <;> simp [timesteps]

theorem sum_gaps (stamps : List ℚ) (t0 : ℚ) :
    (List.zipWith (fun a b => a - b) stamps (t0 :: stamps)).sum =
      (t0 :: stamps).getLast (List.cons_ne_nil t0 stamps) - t0 := by
  induction stamps generalizing t0 with
  | nil => simp
  | cons t rest ih =>
    rw [List.zipWith_cons_cons, List.sum_cons, ih t, List.getLast_cons_cons]
    ring

/-! ## The sequence of filter calls -/

/-- C1, counterexample: constructed with the default parameters, the node
receives one GPS sample.  The calls the callback makes on the filter are nine,
not three: `getMean` and `getCovariance` come right after `systemUpdate`, and
again after `measurementUpdateGPS` and in `publish`. -/
theorem gps_callback_reads_between_operations :
    ((gpsCallback sampleModel (construct sampleModel defaultParams 5) 6 1 1).ekf_filter_.drop
        (construct sampleModel defaultParams 5).ekf_filter_.length).map FilterCall.method =
      [Method.setNewTimestep, Method.systemUpdate, Method.getMean, Method.getCovariance,
       Method.measurementUpdateGPS, Method.getMean, Method.getCovariance,
       Method.getMean, Method.getCovariance] ∧
    ¬ ((gpsCallback sampleModel (construct sampleModel defaultParams 5) 6 1 1).ekf_filter_.drop
        (construct sampleModel defaultParams 5).ekf_filter_.length).map FilterCall.method =
      [Method.setNewTimestep, Method.systemUpdate, Method.measurementUpdateGPS] := by
  have h : ((gpsCallback sampleModel (construct sampleModel defaultParams 5) 6 1 1).ekf_filter_.drop
        (construct sampleModel defaultParams 5).ekf_filter_.length).map FilterCall.method =
      [Method.setNewTimestep, Method.systemUpdate, Method.getMean, Method.getCovariance,
       Method.measurementUpdateGPS, Method.getMean, Method.getCovariance,
       Method.getMean, Method.getCovariance] := by
    rw [gpsCallback_calls, List.drop_left, construct_debug]
    simp [defaultParams, FilterCall.method]
  refine ⟨h, ?_⟩
  rw [h]
  decide

/-- C1, as the code has it: after construction, the operations a sequence of
callbacks performs on the filter (the calls other than the reads `getMean`,
`getCovariance`, `getNumStates` made for printing and publishing) are one
block per callback, in arrival order: `[setNewTimestep, systemUpdate,
measurementUpdateGPS]` for a GPS sample, `[measurementUpdateOdom]` for
odometry, `[measurementUpdateIMU]` for IMU.  The GPS callback interleaves its
three operations with reads only (its full trace is the second part of the
statement).  In the sequence of operations every `systemUpdate` is directly
followed by `measurementUpdateGPS`; the odometry and IMU callbacks make their
single call and nothing else, reads included; and with the one `systemUpdate`
of the constructor the number of predicts after the run is the number of GPS
samples plus one. -/
theorem callbacks_issue_one_block_each (m : FilterModel) (p : Params) (now : ℚ)
    (samples : List Sample) :
    (∀ n : Node, operationNames (run m n samples).ekf_filter_ =
        operationNames n.ekf_filter_ ++ samples.flatMap blockOf) ∧
    (∀ (n : Node) (stamp x y : ℚ),
        operations (gpsCallback m n stamp x y).ekf_filter_ =
          operations n.ekf_filter_ ++
            [FilterCall.setNewTimestep (m.fl (stamp - n.time_old_)), FilterCall.systemUpdate,
             FilterCall.measurementUpdateGPS x y] ∧
        (gpsCallback m n stamp x y).ekf_filter_ = n.ekf_filter_ ++
          ([FilterCall.setNewTimestep (m.fl (stamp - n.time_old_)), FilterCall.systemUpdate,
            FilterCall.getMean, FilterCall.getCovariance,
            FilterCall.measurementUpdateGPS x y,
            FilterCall.getMean, FilterCall.getCovariance,
            FilterCall.getMean, FilterCall.getCovariance] ++
            (if n.debug_ then [FilterCall.getNumStates] else []))) ∧
    (∀ (n : Node) (stamp v w : ℚ),
        (odomCallback m n stamp v w).ekf_filter_ = n.ekf_filter_ ++
          [FilterCall.measurementUpdateOdom (wheelVelocities m.fl m.ODOM_TRACK v w).1
            (wheelVelocities m.fl m.ODOM_TRACK v w).2]) ∧
    (∀ (n : Node) (stamp omg : ℚ),
        (imuCallback n stamp omg).ekf_filter_ =
          n.ekf_filter_ ++ [FilterCall.measurementUpdateIMU omg]) ∧
    (∀ i : ℕ, (samples.flatMap blockOf)[i]? = some Method.systemUpdate →
        (samples.flatMap blockOf)[i + 1]? = some Method.measurementUpdateGPS) ∧
    (operationNames (construct m p now).ekf_filter_).count Method.systemUpdate = 1 ∧
    (operationNames (run m (construct m p now) samples).ekf_filter_).count
        Method.systemUpdate = (gpsStamps samples).length + 1 := by
  have hc : (operationNames (construct m p now).ekf_filter_).count Method.systemUpdate = 1 := by
    rw [construct_calls]
    cases p.odom_used <;> cases p.gps_used <;> cases p.imu_used <;>
      simp [operationNames, operations, FilterCall.isAccessor, FilterCall.method]
  refine ⟨fun n => run_operationNames m samples n, ?_, odomCallback_calls m,
    imuCallback_calls, predict_then_gps samples, hc, ?_⟩
  · intro n stamp x y
    refine ⟨?_, gpsCallback_calls m n stamp x y⟩
    rw [gpsCallback_calls]
    cases n.debug_ <;> simp [operations, FilterCall.isAccessor]
  · rw [run_operationNames, List.count_append, hc, count_predicts, Nat.add_comm]

/-! ## Timesteps -/

/-- C2, counterexample: construction at the double 0.1, GPS samples stamped
with the doubles 0.4 and 1.3.  The two timesteps are the doubles
0.30000000000000004 and 0.9; their sum is not 1.3 - 0.1. -/
theorem timesteps_do_not_sum_to_elapsed :
    timesteps (run sampleModel
      (construct sampleModel defaultParams (3602879701896397 / 36028797018963968))
      [Sample.gps (3602879701896397 / 9007199254740992) 0 0,
       Sample.gps (5854679515581645 / 4503599627370496) 0 0]).ekf_filter_ =
      [1351079888211149 / 4503599627370496, 8106479329266893 / 9007199254740992] ∧
    ¬ (timesteps (run sampleModel
      (construct sampleModel defaultParams (3602879701896397 / 36028797018963968))
      [Sample.gps (3602879701896397 / 9007199254740992) 0 0,
       Sample.gps (5854679515581645 / 4503599627370496) 0 0]).ekf_filter_).sum =
      5854679515581645 / 4503599627370496 - 3602879701896397 / 36028797018963968 := by
  have h1 : binary64 (3602879701896397 / 9007199254740992 -
      3602879701896397 / 36028797018963968) = 1351079888211149 / 4503599627370496 := by
    rw [binary64_eval _ (-2) 5404319552844596 (by norm_num) (by norm_num [abs_of_pos])
      (by norm_num [abs_of_pos]) (by norm_num)
      (by rw [roundHalfEven_tie _ 5404319552844595 (by norm_num)]; norm_num)]
    norm_num
  have h2 : binary64 (5854679515581645 / 4503599627370496 -
      3602879701896397 / 9007199254740992) = 8106479329266893 / 9007199254740992 := by
    rw [binary64_eval _ (-1) 8106479329266893 (by norm_num) (by norm_num [abs_of_pos])
      (by norm_num [abs_of_pos]) (by norm_num)
      (roundHalfEven_eq _ _ (by norm_num) (by norm_num))]
    norm_num
  have h : timesteps (run sampleModel
      (construct sampleModel defaultParams (3602879701896397 / 36028797018963968))
      [Sample.gps (3602879701896397 / 9007199254740992) 0 0,
       Sample.gps (5854679515581645 / 4503599627370496) 0 0]).ekf_filter_ =
      [1351079888211149 / 4503599627370496, 8106479329266893 / 9007199254740992] := by
    rw [run_timesteps, construct_timesteps, (construct_clock _ _ _).1, ← h1, ← h2]
    rfl
  refine ⟨h, ?_⟩
  rw [h]
  norm_num

/-- C2, as the code has it: with `t0` the construction time (the first value
of `time_old_`), the timesteps handed to `setNewTimestep` over a run of
callbacks are, in order, the rounded differences `fl (t_k - t_(k-1))` of
consecutive GPS stamps, whatever odometry and IMU callbacks come in between;
the odometry and IMU callbacks leave `time_old_` and `time_new_` as they are;
and on a machine that subtracts without rounding the timesteps add up to the
last GPS stamp minus `t0`. -/
theorem timestep_is_gps_gap (m : FilterModel) (p : Params) (t0 : ℚ)
    (samples : List Sample) :
    (construct m p t0).time_old_ = t0 ∧
    timesteps (run m (construct m p t0) samples).ekf_filter_ =
      List.zipWith (fun a b => m.fl (a - b)) (gpsStamps samples) (t0 :: gpsStamps samples) ∧
    (∀ (n : Node) (stamp x y : ℚ),
        timesteps (gpsCallback m n stamp x y).ekf_filter_ =
          timesteps n.ekf_filter_ ++ [m.fl (stamp - n.time_old_)] ∧
        (gpsCallback m n stamp x y).time_old_ = stamp) ∧
    (∀ (n : Node) (stamp v w : ℚ),
        (odomCallback m n stamp v w).time_old_ = n.time_old_ ∧
        (odomCallback m n stamp v w).time_new_ = n.time_new_) ∧
    (∀ (n : Node) (stamp omg : ℚ),
        (imuCallback n stamp omg).time_old_ = n.time_old_ ∧
        (imuCallback n stamp omg).time_new_ = n.time_new_) ∧
    (timesteps (run (exactArithmetic m) (construct (exactArithmetic m) p t0)
        samples).ekf_filter_).sum =
      (t0 :: gpsStamps samples).getLast (List.cons_ne_nil t0 (gpsStamps samples)) - t0 := by
  have h : ∀ m' : FilterModel, timesteps (run m' (construct m' p t0) samples).ekf_filter_ =
      List.zipWith (fun a b => m'.fl (a - b)) (gpsStamps samples)
        (t0 :: gpsStamps samples) := by
    intro m'
    rw [run_timesteps, construct_timesteps, (construct_clock m' p t0).1]
    simp
  refine ⟨(construct_clock m p t0).1, h m, ?_, ?_, ?_, ?_⟩
  · intro n stamp x y
    exact ⟨callback_timesteps m n (Sample.gps stamp x y),
      (gpsCallback_clock m n stamp x y).1⟩
  · intro n stamp v w
    exact ⟨(odomCallback_clock m n stamp v w).1, (odomCallback_clock m n stamp v w).2.1⟩
  · intro n stamp omg
    exact ⟨(imuCallback_clock n stamp omg).1, (imuCallback_clock n stamp omg).2.1⟩
  · rw [h (exactArithmetic m)]
    exact sum_gaps (gpsStamps samples) t0

theorem initialTimestep_finite_pos (f : ℚ) (hf : f < 2 ^ 1024) :
    ∃ dt, initialTimestep binary64 (ExtDouble.finite f) = ExtDouble.finite dt ∧ 0 < dt := by
  have key : ∀ x : ℚ, 1 ≤ x → x < 2 ^ 1024 →
      ∃ dt, oneOver binary64 (ExtDouble.finite x) = ExtDouble.finite dt ∧ 0 < dt := by
    intro x h1 h2
    have hx : (0 : ℚ) < x := lt_of_lt_of_le one_pos h1
    refine ⟨binary64 (1 / x), by simp [oneOver, ne_of_gt hx], binary64_pos _ ?_⟩
    rw [le_div_iff₀ hx]
    have h3 : (2 : ℚ) ^ (-1074 : ℤ) * x ≤ 2 ^ (-1074 : ℤ) * 2 ^ 1024 :=
      mul_le_mul_of_nonneg_left (le_of_lt h2) (by positivity)
    have h4 : (2 : ℚ) ^ (-1074 : ℤ) * 2 ^ 1024 ≤ 1 := by norm_num
    linarith
  by_cases h : f < 1
  · have e : initialTimestep binary64 (ExtDouble.finite f) =
        oneOver binary64 (ExtDouble.finite 1) := by
      simp [initialTimestep, maxWithOne, h]
    rw [e]
    exact key 1 (le_refl 1) (by norm_num)
  · have e : initialTimestep binary64 (ExtDouble.finite f) =
        oneOver binary64 (ExtDouble.finite f) := by
      simp [initialTimestep, maxWithOne, h]
    rw [e]
    exact key f (not_lt.1 h) hf

/-- C3, counterexample: constructed at time 5, the node receives a GPS sample
stamped 7 and then one stamped 6; the second timestep handed to
`setNewTimestep` is `-1`. -/
theorem timestep_negative_for_earlier_stamp :
    timesteps (run sampleModel (construct sampleModel defaultParams 5)
      [Sample.gps 7 0 0, Sample.gps 6 0 0]).ekf_filter_ = [2, -1] ∧
    ¬ ∀ dt ∈ timesteps (run sampleModel (construct sampleModel defaultParams 5)
      [Sample.gps 7 0 0, Sample.gps 6 0 0]).ekf_filter_, (0 : ℚ) < dt := by
  have h : timesteps (run sampleModel (construct sampleModel defaultParams 5)
      [Sample.gps 7 0 0, Sample.gps 6 0 0]).ekf_filter_ = [2, -1] := by
    rw [run_timesteps, construct_timesteps, (construct_clock _ _ _).1]
    have e : List.zipWith (fun a b => sampleModel.fl (a - b))
        (gpsStamps [Sample.gps 7 0 0, Sample.gps 6 0 0])
        (5 :: gpsStamps [Sample.gps 7 0 0, Sample.gps 6 0 0]) =
        [binary64 (7 - 5), binary64 (6 - 7)] := rfl
    rw [e, show (7 : ℚ) - 5 = 2 by norm_num, show (6 : ℚ) - 7 = -1 by norm_num,
      binary64_two, binary64_neg_one]
    rfl
  refine ⟨h, ?_⟩
  rw [h]
  intro hall
  have := hall (-1) (by simp)
  norm_num at this

/-- C3, as the code has it, on a machine that rounds as binary64 does: for a
finite `freq` (`f < 2^1024`) the timestep `1/max(freq,1)` given to the filter
constructor is finite and positive, while `freq = +inf` gives 0 and a NaN gives
NaN; the timestep a GPS callback gives to `setNewTimestep` is the rounded
difference of the stamp and `time_old_`, not positive when the stamp is not
later than `time_old_` and positive when it is later by `2^(-1074)`, the
smallest gap between two doubles, or more. -/
theorem timestep_sign_follows_stamps (m : FilterModel) (p : Params) (now : ℚ)
    (n : Node) (stamp x y f : ℚ) (hfl : m.fl = binary64) (hf : f < 2 ^ 1024) :
    (construct m p now).ekf_filter_.head? =
      some (FilterCall.construct (selectFilterType p.filter_type)
        (initialTimestep m.fl p.freq) (sysNoise p)) ∧
    (∃ dt, initialTimestep m.fl (ExtDouble.finite f) = ExtDouble.finite dt ∧ 0 < dt) ∧
    initialTimestep m.fl ExtDouble.posInf = ExtDouble.finite 0 ∧
    initialTimestep m.fl ExtDouble.nan = ExtDouble.nan ∧
    initialTimestep m.fl ExtDouble.negInf = ExtDouble.finite 1 ∧
    timesteps (gpsCallback m n stamp x y).ekf_filter_ =
      timesteps n.ekf_filter_ ++ [m.fl (stamp - n.time_old_)] ∧
    (stamp ≤ n.time_old_ → m.fl (stamp - n.time_old_) ≤ 0) ∧
    (n.time_old_ + 2 ^ (-1074 : ℤ) ≤ stamp → 0 < m.fl (stamp - n.time_old_)) := by
  refine ⟨by rw [construct_calls]; simp, ?_, rfl, rfl, ?_,
    callback_timesteps m n (Sample.gps stamp x y), ?_, ?_⟩
  · rw [hfl]
    exact initialTimestep_finite_pos f hf
  · rw [hfl]
    simp [initialTimestep, maxWithOne, oneOver, binary64_one]
  · intro h
    rw [hfl]
    exact binary64_nonpos _ (by linarith)
  · intro h
    rw [hfl]
    exact binary64_pos _ (by linarith)

/-- C3, at a concrete input: the default `freq = 10` on the binary64 machine
gives a positive initial timestep. -/
theorem timestep_sign_follows_stamps_witness :
    (sampleModel.fl = binary64 ∧ (10 : ℚ) < 2 ^ 1024) ∧
    ∃ dt, initialTimestep sampleModel.fl (ExtDouble.finite 10) = ExtDouble.finite dt ∧
      0 < dt :=
  ⟨⟨rfl, by norm_num⟩,
    (timestep_sign_follows_stamps sampleModel defaultParams 5
      (construct sampleModel defaultParams 5) 6 0 0 10 rfl (by norm_num)).2.1⟩

/-! ## Wheel velocities -/

/-- C4, counterexample: track width 0.5 and an odometry sample with the
doubles `v = 0.1`, `w = 0.3`.  The callback hands the doubles
`vR = 0.175` and `vL = 0.02500000000000001` to the filter; `vR - vL` is not
`T*w` and `(vR + vL)/2` is not `v`. -/
theorem wheel_identities_fail_after_rounding :
    (odomCallback halfTrackModel (construct halfTrackModel defaultParams 0) 0
        (3602879701896397 / 36028797018963968)
        (5404319552844595 / 18014398509481984)).ekf_filter_ =
      (construct halfTrackModel defaultParams 0).ekf_filter_ ++
        [FilterCall.measurementUpdateOdom (3152519739159347 / 18014398509481984)
          (1801439850948199 / 72057594037927936)] ∧
    ¬ ((3152519739159347 / 18014398509481984 : ℚ) - 1801439850948199 / 72057594037927936 =
        halfTrackModel.ODOM_TRACK * (5404319552844595 / 18014398509481984)) ∧
    ¬ (((3152519739159347 / 18014398509481984 : ℚ) + 1801439850948199 / 72057594037927936) / 2 =
        3602879701896397 / 36028797018963968) := by
  have ha : binary64 ((1 / 2 : ℚ) / 2) = 1 / 4 := by
    rw [binary64_eval _ (-2) (2 ^ 52) (by norm_num) (by norm_num [abs_of_pos])
      (by norm_num [abs_of_pos]) (by norm_num)
      (roundHalfEven_eq _ _ (by norm_num) (by norm_num))]
    norm_num
  have hb : binary64 ((1 / 4 : ℚ) * (5404319552844595 / 18014398509481984)) =
      5404319552844595 / 72057594037927936 := by
    rw [binary64_eval _ (-4) 5404319552844595 (by norm_num) (by norm_num [abs_of_pos])
      (by norm_num [abs_of_pos]) (by norm_num)
      (roundHalfEven_eq _ _ (by norm_num) (by norm_num))]
    norm_num
  have hR : binary64 ((3602879701896397 / 36028797018963968 : ℚ) +
      5404319552844595 / 72057594037927936) = 3152519739159347 / 18014398509481984 := by
    rw [binary64_eval _ (-3) 6305039478318694 (by norm_num) (by norm_num [abs_of_pos])
      (by norm_num [abs_of_pos]) (by norm_num)
      (by rw [roundHalfEven_tie _ 6305039478318694 (by norm_num)]; norm_num)]
    norm_num
  have hL : binary64 ((3602879701896397 / 36028797018963968 : ℚ) -
      5404319552844595 / 72057594037927936) = 1801439850948199 / 72057594037927936 := by
    rw [binary64_eval _ (-6) 7205759403792796 (by norm_num) (by norm_num [abs_of_pos])
      (by norm_num [abs_of_pos]) (by norm_num)
      (roundHalfEven_eq _ _ (by norm_num) (by norm_num))]
    norm_num
  have hw : wheelVelocities halfTrackModel.fl halfTrackModel.ODOM_TRACK
      (3602879701896397 / 36028797018963968) (5404319552844595 / 18014398509481984) =
      (3152519739159347 / 18014398509481984, 1801439850948199 / 72057594037927936) := by
    have e : wheelVelocities halfTrackModel.fl halfTrackModel.ODOM_TRACK
        (3602879701896397 / 36028797018963968) (5404319552844595 / 18014398509481984) =
        (binary64 ((3602879701896397 / 36028797018963968 : ℚ) +
          binary64 (binary64 ((1 / 2 : ℚ) / 2) * (5404319552844595 / 18014398509481984))),
         binary64 ((3602879701896397 / 36028797018963968 : ℚ) -
          binary64 (binary64 ((1 / 2 : ℚ) / 2) * (5404319552844595 / 18014398509481984)))) :=
      rfl
    rw [e, ha, hb, hR, hL]
  refine ⟨?_, ?_, ?_⟩
  · rw [odomCallback_calls, hw]
  · norm_num [halfTrackModel, sampleModel]
  · norm_num

/-- C4, as the code has it: the odometry callback hands `vR = v + (T/2)*w` and
`vL = v - (T/2)*w` to `measurementUpdateOdom`, `T` being `ODOM_TRACK` and every
operation rounded to a double; for `w = 0` on the binary64 machine both are
(the double) `v`.  The identities `(vR + vL)/2 = v` and `vR - vL = T*w` hold
for the values computed without rounding. -/
theorem wheel_velocities_from_twist (m : FilterModel) (n : Node) (stamp v w : ℚ) :
    (odomCallback m n stamp v w).ekf_filter_ = n.ekf_filter_ ++
      [FilterCall.measurementUpdateOdom (wheelVelocities m.fl m.ODOM_TRACK v w).1
        (wheelVelocities m.fl m.ODOM_TRACK v w).2] ∧
    (wheelVelocities m.fl m.ODOM_TRACK v w).1 =
      m.fl (v + m.fl (m.fl (m.ODOM_TRACK / 2) * w)) ∧
    (wheelVelocities m.fl m.ODOM_TRACK v w).2 =
      m.fl (v - m.fl (m.fl (m.ODOM_TRACK / 2) * w)) ∧
    wheelVelocities binary64 m.ODOM_TRACK v 0 = (binary64 v, binary64 v) ∧
    (binary64 v = v → wheelVelocities binary64 m.ODOM_TRACK v 0 = (v, v)) ∧
    (wheelVelocities (fun q => q) m.ODOM_TRACK v w).1 = v + (m.ODOM_TRACK / 2) * w ∧
    (wheelVelocities (fun q => q) m.ODOM_TRACK v w).2 = v - (m.ODOM_TRACK / 2) * w ∧
    ((wheelVelocities (fun q => q) m.ODOM_TRACK v w).1 +
      (wheelVelocities (fun q => q) m.ODOM_TRACK v w).2) / 2 = v ∧
    (wheelVelocities (fun q => q) m.ODOM_TRACK v w).1 -
      (wheelVelocities (fun q => q) m.ODOM_TRACK v w).2 = m.ODOM_TRACK * w := by
  have h0 : wheelVelocities binary64 m.ODOM_TRACK v 0 = (binary64 v, binary64 v) := by
    simp [wheelVelocities, binary64_zero]
  refine ⟨odomCallback_calls m n stamp v w, rfl, rfl, h0, ?_, rfl, rfl, ?_, ?_⟩
  · intro hv
    rw [h0, hv]
  · simp only [wheelVelocities]; ring
  · simp only [wheelVelocities]; ring

/-! ## Configuration and publishing -/

/-- C6, counterexample: with `sigma_sys_vR = 2` and `sigma_sys_vL = 3` the
entry `sysNoise(6)` is 4 and `sysNoise(7)` is 9, so they are not the left and
the right wheel variance in that order. -/
theorem sysNoise_entry6_is_not_left_wheel :
    (sysNoise wheelParams)[5]? = some 4 ∧ (sysNoise wheelParams)[6]? = some 9 ∧
    ¬ ((sysNoise wheelParams)[5]? = some (wheelParams.sigma_sys_vL ^ 2) ∧
       (sysNoise wheelParams)[6]? = some (wheelParams.sigma_sys_vR ^ 2)) := by
  norm_num [sysNoise, wheelParams, defaultParams]

/-- C6, as the code has it: the vector handed to the filter constructor has
eight entries, the squares of the sigmas in the order x, y, heading, velocity,
angular rate, right wheel (`sigma_sys_vR`), left wheel (`sigma_sys_vL`), gyro
bias. -/
theorem sysNoise_order (m : FilterModel) (p : Params) (now : ℚ) :
    (construct m p now).ekf_filter_.head? =
      some (FilterCall.construct (selectFilterType p.filter_type)
        (initialTimestep m.fl p.freq) (sysNoise p)) ∧
    (construct m p now).sys_covariance_ = sysNoise p ∧
    (sysNoise p).length = 8 ∧
    sysNoise p =
      [p.sigma_sys_x ^ 2, p.sigma_sys_y ^ 2, p.sigma_sys_tht ^ 2, p.sigma_sys_vel ^ 2,
       p.sigma_sys_omg ^ 2, p.sigma_sys_vR ^ 2, p.sigma_sys_vL ^ 2,
       p.sigma_sys_imubias ^ 2] := by
  refine ⟨by rw [construct_calls]; simp, ?_, rfl, rfl⟩
  simp only [construct, subscribeAll, systemUpdate, (initIMU_flags _ _ _).2.2.2.2.2.1,
    (initGPS_flags _ _ _).2.2.2.2.2.1, (initOdom_flags _ _ _).2.2.2.2.2.1]
  rfl

/-- C10: the variant is a function of the `filter_type` string alone:
`EKF_3STATE` exactly for "ekf_3state", `EKF_7STATE_VERR` exactly for
"ekf_7state_verr", and `EKF_5STATE` for every other string, "ekf_5state"
among them. -/
theorem selectFilterType_spec (s : String) :
    (selectFilterType s = FilterType.EKF_3STATE ↔ s = "ekf_3state") ∧
    (selectFilterType s = FilterType.EKF_7STATE_VERR ↔ s = "ekf_7state_verr") ∧
    (selectFilterType s = FilterType.EKF_5STATE ↔
      (s ≠ "ekf_3state" ∧ s ≠ "ekf_7state_verr")) ∧
    selectFilterType "ekf_5state" = FilterType.EKF_5STATE ∧
    ∀ (m : FilterModel) (p : Params) (now : ℚ),
      (construct m p now).filter_type_ = selectFilterType p.filter_type := by
  refine ⟨?_, ?_, ?_, by decide, ?_⟩
  · unfold selectFilterType
    constructor
    · intro h
      split_ifs at h with h1 h2 h3
      exact h2
    · intro h
      subst h
      decide
  · unfold selectFilterType
    constructor
    · intro h
      split_ifs at h with h1 h2 h3
      exact h3
    · intro h
      subst h
      decide
  · unfold selectFilterType
    constructor
    · intro h
      split_ifs at h with h1 h2 h3
      · subst h1
        exact ⟨by decide, by decide⟩
      · exact ⟨h2, h3⟩
    · intro h
      split_ifs with h1 h2 h3
      · rfl
      · exact absurd h2 h.1
      · exact absurd h3 h.2
      · rfl
  · intro m p now
    simp only [construct, subscribeAll, systemUpdate, (initIMU_flags _ _ _).2.2.2.2.1,
      (initGPS_flags _ _ _).2.2.2.2.1, (initOdom_flags _ _ _).2.2.2.2.1]
    rfl

theorem copyCovariance_apply (cov : ℕ → ℕ → ℚ) (c0 : ℕ → ℚ) (k : ℕ) :
    copyCovariance cov c0 k =
      if k = 0 then cov 1 1 else if k = 1 then cov 1 2 else if k = 6 then cov 2 1
      else if k = 7 then cov 2 2 else if k = 35 then cov 3 3 else c0 k := by
  simp only [copyCovariance, List.range_succ, List.range_zero, List.nil_append,
    List.cons_append, List.foldl_cons, List.foldl_nil, Function.update_apply]
  split_ifs <;> first | rfl | omega

theorem publish_pose (m : FilterModel) (n : Node) :
    (publish m n).pose_pub_ = n.pose_pub_ ++
      [poseMessage PoseWithCovarianceStamped.zero n.gps_stamp_
        (m.getMean (n.ekf_filter_ ++ [FilterCall.getMean]))
        (m.getCovariance (n.ekf_filter_ ++ [FilterCall.getMean, FilterCall.getCovariance]))] := by
  cases h : n.debug_ <;> simp [publish, h]

theorem sqrt_four : Rat.sqrt 4 = 2 := by
  have h : Rat.sqrt (2 * 2) = |2| := Rat.sqrt_eq 2
  rw [show (2 : ℚ) * 2 = 4 by norm_num, abs_of_pos (by norm_num : (0 : ℚ) < 2)] at h
  exact h

/-- C5, counterexample: with a filter covariance whose off-diagonal entries
are all 1, the published message has 0 at entry `6*0+5`, not `cov(1,3) = 1`;
the same at entries `6*1+5`, `6*5+0`, `6*5+1`. -/
theorem pose_cross_terms_not_copied :
    (publish sampleModel (construct sampleModel defaultParams 0)).pose_pub_.map
      (fun p => [p.covariance (6 * 0 + 5), p.covariance (6 * 1 + 5),
        p.covariance (6 * 5 + 0), p.covariance (6 * 5 + 1)]) = [[0, 0, 0, 0]] ∧
    (∀ calls : List FilterCall, sampleModel.getCovariance calls 1 3 = 1 ∧
      sampleModel.getCovariance calls 2 3 = 1 ∧ sampleModel.getCovariance calls 3 1 = 1 ∧
      sampleModel.getCovariance calls 3 2 = 1) := by
  constructor
  · rw [publish_pose]
    simp [construct, subscribeAll, systemUpdate, initIMU, initGPS, initOdom,
      afterFilterCreation, sampleModel, defaultParams, poseMessage, copyCovariance_apply,
      PoseWithCovarianceStamped.zero]
  · intro calls
    simp [sampleModel]

/-- C5, as the code has it: the message `publish` sends carries `x = mean(1)`,
`y = mean(2)`, yaw `mean(3)`; its covariance holds `cov(1,1)`, `cov(1,2)`,
`cov(2,1)`, `cov(2,2)` at entries 0, 1, 6, 7 and `cov(3,3)` at entry 35, and
every other entry is the zero of the fresh message. -/
theorem pose_message_contents (m : FilterModel) (n : Node) :
    (publish m n).pose_pub_ = n.pose_pub_ ++
      [poseMessage PoseWithCovarianceStamped.zero n.gps_stamp_
        (m.getMean (n.ekf_filter_ ++ [FilterCall.getMean]))
        (m.getCovariance (n.ekf_filter_ ++ [FilterCall.getMean, FilterCall.getCovariance]))] ∧
    (∀ (stamp : ℚ) (mean : ℕ → ℚ) (cov : ℕ → ℕ → ℚ),
      (poseMessage PoseWithCovarianceStamped.zero stamp mean cov).x = mean 1 ∧
      (poseMessage PoseWithCovarianceStamped.zero stamp mean cov).y = mean 2 ∧
      (poseMessage PoseWithCovarianceStamped.zero stamp mean cov).yaw = mean 3 ∧
      ∀ k : ℕ, (poseMessage PoseWithCovarianceStamped.zero stamp mean cov).covariance k =
        if k = 6 * 0 + 0 then cov 1 1 else if k = 6 * 0 + 1 then cov 1 2
        else if k = 6 * 1 + 0 then cov 2 1 else if k = 6 * 1 + 1 then cov 2 2
        else if k = 6 * 5 + 5 then cov 3 3 else 0) := by
  refine ⟨publish_pose m n, ?_⟩
  intro stamp mean cov
  refine ⟨rfl, rfl, rfl, ?_⟩
  intro k
  simp [poseMessage, copyCovariance_apply, PoseWithCovarianceStamped.zero]

theorem publish_debug_files (m : FilterModel) (n : Node) :
    (publish m { n with debug_ := true }).state_file_ = n.state_file_ ++
      [stateRecord (n.time_new_ - n.time_start_)
        (m.getMean (n.ekf_filter_ ++ [FilterCall.getMean]))
        (m.getNumStates (n.ekf_filter_ ++
          [FilterCall.getMean, FilterCall.getCovariance, FilterCall.getNumStates]))] ∧
    (publish m { n with debug_ := true }).cov_file_ = n.cov_file_ ++
      [covRecord m.sqrt (n.time_new_ - n.time_start_)
        (m.getCovariance (n.ekf_filter_ ++ [FilterCall.getMean, FilterCall.getCovariance]))
        (m.getNumStates (n.ekf_filter_ ++
          [FilterCall.getMean, FilterCall.getCovariance, FilterCall.getNumStates]))] := by
  simp [publish]

theorem stateRecord_entry (elapsed : ℚ) (mean : ℕ → ℚ) (numstates i : ℕ)
    (h1 : 1 ≤ i) (h2 : i ≤ numstates) :
    (stateRecord elapsed mean numstates)[i]? = some (mean i) := by
  obtain ⟨k, rfl⟩ : ∃ k, i = k + 1 := ⟨i - 1, by omega⟩
  simp only [stateRecord, List.singleton_append, List.cons_append, List.getElem?_cons_succ]
  by_cases hk : k < numstates - 1
  · rw [List.getElem?_append_left (by simpa using hk)]
    simp [List.getElem?_range', hk, Nat.add_comm]
  · have hk2 : k = numstates - 1 := by omega
    rw [List.getElem?_append_right (by simp; omega)]
    simp [hk2]
    congr 1
    omega

theorem covRecord_loop_entry (sqrt : ℚ → ℚ) (elapsed : ℚ) (cov : ℕ → ℕ → ℚ)
    (numstates i : ℕ) (h1 : 1 ≤ i) (h2 : i < numstates) :
    (covRecord sqrt elapsed cov numstates)[i]? = some (3 * sqrt (cov i i)) := by
  obtain ⟨k, rfl⟩ : ∃ k, i = k + 1 := ⟨i - 1, by omega⟩
  simp only [covRecord, List.singleton_append, List.cons_append, List.getElem?_cons_succ]
  have hk : k < numstates - 1 := by omega
  rw [List.getElem?_append_left (by simpa using hk)]
  simp [List.getElem?_range', hk, Nat.add_comm]

theorem covRecord_last_entry (sqrt : ℚ → ℚ) (elapsed : ℚ) (cov : ℕ → ℕ → ℚ)
    (numstates : ℕ) (h1 : 1 ≤ numstates) :
    (covRecord sqrt elapsed cov numstates)[numstates]? = some (cov numstates numstates) := by
  obtain ⟨k, rfl⟩ : ∃ k, numstates = k + 1 := ⟨numstates - 1, by omega⟩
  simp only [covRecord, List.singleton_append, List.cons_append, List.getElem?_cons_succ]
  rw [List.getElem?_append_right (by simp)]
  simp

/-- C7, at the failing input: debug mode, three states, every variance 4 and
`sqrt 4 = 2`.  The state record is `[elapsed, mean(1), mean(2), mean(3)]`; the
covariance record is `[elapsed, 6, 6, 4]`: the loop entries are the bounds
`3*sqrt(4) = 6`, the last entry is the variance `cov(3,3) = 4` itself. -/
theorem cov_record_last_entry_is_raw_variance :
    (gpsCallback sampleModel (construct sampleModel debugParams 5) 6 1 1).state_file_ =
      [[0, 1, 2, 3]] ∧
    (gpsCallback sampleModel (construct sampleModel debugParams 5) 6 1 1).cov_file_ =
      [[0, 6, 6, 4]] ∧
    (∀ calls : List FilterCall, sampleModel.getNumStates calls = 3 ∧
      3 * sampleModel.sqrt (sampleModel.getCovariance calls 3 3) = 6) := by
  refine ⟨?_, ?_, ?_⟩
  · simp [gpsCallback, publish, setStartTime, construct, subscribeAll, systemUpdate,
      initIMU, initGPS, initOdom, afterFilterCreation, sampleModel, debugParams,
      defaultParams, stateRecord, List.range'_succ]
  · simp [gpsCallback, publish, setStartTime, construct, subscribeAll, systemUpdate,
      initIMU, initGPS, initOdom, afterFilterCreation, sampleModel, debugParams,
      defaultParams, covRecord, List.range'_succ, sqrt_four]
    norm_num
  · intro calls
    simp [sampleModel, sqrt_four]
    norm_num

/-- C9: in debug mode `publish` runs the switch on `ekf_debug_` and sends the
message once, whatever the variant.  Entering at `EKF_5STATE` writes velocity,
angular rate and their bounds and then, falling through, x, y, heading and
their bounds; entering at `EKF_3STATE` writes x, y, heading and their bounds
and leaves the velocity and angular-rate fields as they were; for
`EKF_7STATE_VERR` only the `default` statement runs, so the message goes out
with no state or bound field written. -/
theorem debug_switch_falls_through (m : FilterModel) (n : Node) (sqrt : ℚ → ℚ)
    (mean : ℕ → ℚ) (cov : ℕ → ℕ → ℚ) (d : EKFDebug) (sent : List EKFDebug) :
    (publish m { n with debug_ := true }).debug_pub_ =
      (debugSwitch m.sqrt n.filter_type_
        (m.getMean (n.ekf_filter_ ++ [FilterCall.getMean]))
        (m.getCovariance (n.ekf_filter_ ++ [FilterCall.getMean, FilterCall.getCovariance]))
        (n.ekf_debug_, n.debug_pub_)).2 ∧
    (publish m { n with debug_ := true }).ekf_debug_ =
      (debugSwitch m.sqrt n.filter_type_
        (m.getMean (n.ekf_filter_ ++ [FilterCall.getMean]))
        (m.getCovariance (n.ekf_filter_ ++ [FilterCall.getMean, FilterCall.getCovariance]))
        (n.ekf_debug_, n.debug_pub_)).1 ∧
    (debugSwitch sqrt FilterType.EKF_5STATE mean cov (d, sent)).1 =
      { d with ekf_vel := mean 4, ekf_omg := mean 5,
               ekf_err_vel := 3 * sqrt (cov 4 4), ekf_err_omg := 3 * sqrt (cov 5 5),
               ekf_x := mean 1, ekf_y := mean 2, ekf_tht := mean 3,
               ekf_err_x := 3 * sqrt (cov 1 1), ekf_err_y := 3 * sqrt (cov 2 2),
               ekf_err_tht := 3 * sqrt (cov 3 3) } ∧
    (debugSwitch sqrt FilterType.EKF_3STATE mean cov (d, sent)).1 =
      { d with ekf_x := mean 1, ekf_y := mean 2, ekf_tht := mean 3,
               ekf_err_x := 3 * sqrt (cov 1 1), ekf_err_y := 3 * sqrt (cov 2 2),
               ekf_err_tht := 3 * sqrt (cov 3 3) } ∧
    ((debugSwitch sqrt FilterType.EKF_3STATE mean cov (d, sent)).1.ekf_vel = d.ekf_vel ∧
     (debugSwitch sqrt FilterType.EKF_3STATE mean cov (d, sent)).1.ekf_omg = d.ekf_omg ∧
     (debugSwitch sqrt FilterType.EKF_3STATE mean cov (d, sent)).1.ekf_err_vel =
       d.ekf_err_vel ∧
     (debugSwitch sqrt FilterType.EKF_3STATE mean cov (d, sent)).1.ekf_err_omg =
       d.ekf_err_omg) ∧
    debugSwitch sqrt FilterType.EKF_7STATE_VERR mean cov (d, sent) = (d, sent ++ [d]) ∧
    (∀ ft : FilterType,
      (debugSwitch sqrt ft mean cov (d, sent)).2 =
        sent ++ [(debugSwitch sqrt ft mean cov (d, sent)).1]) := by
  refine ⟨by simp [publish], by simp [publish], rfl, rfl, ⟨rfl, rfl, rfl, rfl⟩, rfl, ?_⟩
  intro ft
  cases ft <;> rfl


/-! ## Channels -/

theorem construct_subscribed (m : FilterModel) (p : Params) (now : ℚ) :
    (construct m p now).subscribed =
      (if p.odom_used then [Topic.odom] else []) ++
      (if p.imu_used then [Topic.imu_data] else []) ++
      (if p.gps_used then [Topic.gps_pose] else []) := by
  simp only [construct, subscribeAll, systemUpdate, initIMU_flags, initGPS_flags,
    initOdom_flags]
  simp [afterFilterCreation]

theorem deliver_operationNames (m : FilterModel) (n : Node) (s : Sample) :
    operationNames (deliver m n s).ekf_filter_ = operationNames n.ekf_filter_ ++
      (if s.topic ∈ n.subscribed then blockOf s else []) := by
  unfold deliver
  split_ifs with h
  · exact callback_operationNames m n s
  · simp

theorem construct_warnings (m : FilterModel) (p : Params) (now : ℚ) :
    (construct m p now).warnings =
      (initIMU m p (initGPS m p (initOdom m p (afterFilterCreation m p)))).warnings := by
  simp [construct, subscribeAll, systemUpdate]

/-- C8, counterexample: the three-state filter with GPS and IMU requested.
The filter refuses the inertial channel (`initMeasIMU` answers `false`, the
warning is logged); the node still subscribes to `imu/data`, and an IMU sample
arriving afterwards is forwarded to `measurementUpdateIMU`. -/
theorem failed_channel_still_subscribed :
    variantModel.initMeasIMU
        ((initGPS variantModel basicImuParams (initOdom variantModel basicImuParams
          (afterFilterCreation variantModel basicImuParams))).ekf_filter_ ++
          [FilterCall.initMeasIMU (basicImuParams.sigma_meas_imu_omg ^ 2)]) = false ∧
    (construct variantModel basicImuParams 5).warnings =
      ["Tried to initialize IMU measurement but failed"] ∧
    (construct variantModel basicImuParams 5).subscribed =
      [Topic.imu_data, Topic.gps_pose] ∧
    (deliver variantModel (construct variantModel basicImuParams 5)
        (Sample.imu 6 1)).ekf_filter_ =
      (construct variantModel basicImuParams 5).ekf_filter_ ++
        [FilterCall.measurementUpdateIMU 1] := by
  have hs : (construct variantModel basicImuParams 5).subscribed =
      [Topic.imu_data, Topic.gps_pose] := by
    rw [construct_subscribed]
    simp [basicImuParams, defaultParams]
  refine ⟨?_, ?_, hs, ?_⟩
  · simp [initGPS, initOdom, afterFilterCreation, variantModel, basicImuParams,
      defaultParams, selectFilterType]
  · simp [construct, subscribeAll, systemUpdate, initIMU, initGPS, initOdom,
      afterFilterCreation, variantModel, basicImuParams, defaultParams, selectFilterType]
  · rw [deliver, if_pos (by rw [hs]; simp [Sample.topic])]
    simp only [callback, imuCallback_calls]

/-- C8, as the code has it: the node subscribes to a channel's topic exactly
when the channel is requested (`odom_used`, `imu_used`, `gps_used`), whatever
`initMeasOdom`, `initMeasGPS`, `initMeasIMU` answered; each enabling step adds
its warning exactly when the channel is requested and the answer is `false`,
and leaves the flags and the subscriptions alone; and every sample arriving on
a subscribed topic is forwarded to the filter as the block of its callback. -/
theorem subscription_follows_request_only (m : FilterModel) (p : Params) (now : ℚ)
    (n : Node) (s : Sample) :
    (construct m p now).subscribed =
      (if p.odom_used then [Topic.odom] else []) ++
      (if p.imu_used then [Topic.imu_data] else []) ++
      (if p.gps_used then [Topic.gps_pose] else []) ∧
    (Topic.odom ∈ (construct m p now).subscribed ↔ p.odom_used = true) ∧
    (Topic.imu_data ∈ (construct m p now).subscribed ↔ p.imu_used = true) ∧
    (Topic.gps_pose ∈ (construct m p now).subscribed ↔ p.gps_used = true) ∧
    (construct m p now).warnings =
      (initIMU m p (initGPS m p (initOdom m p (afterFilterCreation m p)))).warnings ∧
    (afterFilterCreation m p).warnings = [] ∧
    ((initOdom m p n).warnings = n.warnings ++
      (if n.odom_used_ = true ∧ m.initMeasOdom (n.ekf_filter_ ++
          [FilterCall.initMeasOdom p.sigma_meas_odom_alpha p.sigma_meas_odom_eps]) = false
       then ["Tried to initialize Odometry measurement but failed"] else []) ∧
      (initOdom m p n).odom_used_ = n.odom_used_ ∧ (initOdom m p n).imu_used_ = n.imu_used_ ∧
      (initOdom m p n).gps_used_ = n.gps_used_ ∧
      (initOdom m p n).subscribed = n.subscribed) ∧
    ((initGPS m p n).warnings = n.warnings ++
      (if n.gps_used_ = true ∧ m.initMeasGPS (n.ekf_filter_ ++
          [FilterCall.initMeasGPS (gpsNoise p)]) = false
       then ["Tried to initialize GPS measurement but failed"] else []) ∧
      (initGPS m p n).odom_used_ = n.odom_used_ ∧ (initGPS m p n).imu_used_ = n.imu_used_ ∧
      (initGPS m p n).gps_used_ = n.gps_used_ ∧
      (initGPS m p n).subscribed = n.subscribed) ∧
    ((initIMU m p n).warnings = n.warnings ++
      (if n.imu_used_ = true ∧ m.initMeasIMU (n.ekf_filter_ ++
          [FilterCall.initMeasIMU (p.sigma_meas_imu_omg ^ 2)]) = false
       then ["Tried to initialize IMU measurement but failed"] else []) ∧
      (initIMU m p n).odom_used_ = n.odom_used_ ∧ (initIMU m p n).imu_used_ = n.imu_used_ ∧
      (initIMU m p n).gps_used_ = n.gps_used_ ∧
      (initIMU m p n).subscribed = n.subscribed) ∧
    operationNames (deliver m n s).ekf_filter_ = operationNames n.ekf_filter_ ++
      (if s.topic ∈ n.subscribed then blockOf s else []) := by
  refine ⟨construct_subscribed m p now, ?_, ?_, ?_, construct_warnings m p now, rfl,
    ⟨initOdom_warnings m p n, (initOdom_flags m p n).1, (initOdom_flags m p n).2.1,
      (initOdom_flags m p n).2.2.1, (initOdom_flags m p n).2.2.2.1⟩,
    ⟨initGPS_warnings m p n, (initGPS_flags m p n).1, (initGPS_flags m p n).2.1,
      (initGPS_flags m p n).2.2.1, (initGPS_flags m p n).2.2.2.1⟩,
    ⟨initIMU_warnings m p n, (initIMU_flags m p n).1, (initIMU_flags m p n).2.1,
      (initIMU_flags m p n).2.2.1, (initIMU_flags m p n).2.2.2.1⟩,
    deliver_operationNames m n s⟩
  · rw [construct_subscribed]
    cases p.odom_used <;> cases p.imu_used <;> cases p.gps_used <;> simp
  · rw [construct_subscribed]
    cases p.odom_used <;> cases p.imu_used <;> cases p.gps_used <;> simp
  · rw [construct_subscribed]
    cases p.odom_used <;> cases p.imu_used <;> cases p.gps_used <;> simp

end RobotPrecisionEKFNode
